import Mathlib

/-!
Verification of the Circadia Sense Arduino sketches.

The repository holds two near-identical sketches:
  * src/198_Automatic_Lighting_Pod/198_Automatic_Lighting_Pod.ino   (the "live" sketch)
  * src/198_Circadian_Light_Controller_Demo/198_Circadian_Light_Controller_Demo.ino
    (the "demo" sketch)

Embedding conventions:
  * uint8_t channels and brightness values are modelled as ℕ (with the 0..255
    range carried in hypotheses where a claim needs it);
  * C float/double arithmetic is modelled exactly over ℚ (the claims under
    scrutiny are stated in terms of exact real arithmetic);
  * the C cast (uint8_t)x of a nonnegative float truncates toward zero, which
    is Nat.floor on ℚ for the nonnegative values arising here;
  * millis() values and elapsed times are ℕ parameters;
  * the String mode names "DAYTIME"/"AFTERNOON"/"NIGHT" are only ever compared
    for equality, so they are modelled by the inductive ModeName;
  * hardware I/O (strip.show, LCD printing, Serial) is out of scope; the value
    written to a pixel is modelled as the RGBColor passed to setPixelColor.
-/

namespace Circadia

/-- RGB color with three 8-bit channels, from `struct RGBColor { uint8_t r; uint8_t g; uint8_t b; }`. -/
structure RGBColor where
  r : ℕ
  g : ℕ
  b : ℕ
deriving DecidableEq, Repr

/-- Mode names; in the sketches these are the String values "DAYTIME", "AFTERNOON",
"NIGHT", used only in equality comparisons and LCD output. -/
inductive ModeName
  | DAYTIME
  | AFTERNOON
  | NIGHT
deriving DecidableEq, Repr

/-- The C cast `(uint8_t)x` of a nonnegative float value, i.e. truncation toward
zero, which is the floor for the nonnegative values arising in the sketches. -/
def truncToUInt8 (x : ℚ) : ℕ := ⌊x⌋₊

/-- One channel of the linear interpolation inside fade():
`(uint8_t)((startColor.ch * (1.0 - factor)) + (endColor.ch * factor))`. -/
def lerpChannel (s e : ℕ) (factor : ℚ) : ℕ :=
  truncToUInt8 ((s : ℚ) * (1 - factor) + (e : ℚ) * factor)

/-- fade() from either sketch (the two bodies are textually identical), as a function
from the fade state to the new currentColor.  `timeElapsed` is `millis() - fadeStartTime`
and `duration` is FADE_DURATION_MS (1800000 in the live sketch, 3000 in the demo). -/
def fade (startColor endColor : RGBColor) (timeElapsed duration : ℕ) : RGBColor :=
  if timeElapsed < duration then
    let factor : ℚ := (timeElapsed : ℚ) / (duration : ℚ)
    { r := lerpChannel startColor.r endColor.r factor
      g := lerpChannel startColor.g endColor.g factor
      b := lerpChannel startColor.b endColor.b factor }
  else
    endColor

/-- FADE_DURATION_MS of the live sketch: 30 minutes. -/
def FADE_DURATION_MS_live : ℕ := 1800000

/-- FADE_DURATION_MS of the demo sketch: 3 seconds. -/
def FADE_DURATION_MS_demo : ℕ := 3000

/-- Spec-side channel formula for comparison: `round(start*(1-f) + end*f)`,
exactly as the spec's testable property states it (round, not truncate). -/
def roundLerpChannel (s e : ℕ) (factor : ℚ) : ℕ :=
  (round ((s : ℚ) * (1 - factor) + (e : ℚ) * factor)).toNat

namespace Live

/-- First color block of the live sketch (lines 50-52):
`const RGBColor COLOR_DAYTIME = {255, 255, 255};` -- Bright Cool White. -/
def COLOR_DAYTIME_first : RGBColor := ⟨255, 255, 255⟩

/-- First color block (line 51): `const RGBColor COLOR_AFTERNOON = {255, 140, 0};`. -/
def COLOR_AFTERNOON_first : RGBColor := ⟨255, 140, 0⟩

/-- First color block (line 52): `const RGBColor COLOR_NIGHT = {0, 10, 50};`. -/
def COLOR_NIGHT_first : RGBColor := ⟨0, 10, 50⟩

/-- Second color block of the live sketch (line 65), taken as the effective value
under the spec's "second definition shadows the first" reading:
`const RGBColor COLOR_DAYTIME = {0, 10, 50};` -- Calm Blue (morning). -/
def COLOR_DAYTIME : RGBColor := ⟨0, 10, 50⟩

/-- Second color block (line 66): `const RGBColor COLOR_AFTERNOON = {255, 255, 255};`. -/
def COLOR_AFTERNOON : RGBColor := ⟨255, 255, 255⟩

/-- Second color block (line 67): `const RGBColor COLOR_NIGHT = {255, 140, 0};`. -/
def COLOR_NIGHT : RGBColor := ⟨255, 140, 0⟩

/-- HOUR_DAY_START (7:00 AM). -/
def HOUR_DAY_START : ℤ := 7

/-- HOUR_AFTERNOON_START (5:00 PM). -/
def HOUR_AFTERNOON_START : ℤ := 17

/-- HOUR_NIGHT_START (9:00 PM). -/
def HOUR_NIGHT_START : ℤ := 21

/-- The global state of the live sketch touched by checkMode/setupFade. -/
structure State where
  currentMode : ModeName
  currentColor : RGBColor
  startColor : RGBColor
  endColor : RGBColor
  fadeStartTime : ℕ
deriving DecidableEq, Repr

/-- The pure mode/color selection performed by the first part of checkMode (lines
156-166): the if/else-if/else ladder on `currentHour` assigning `mode` and `color`. -/
def selectModeColor (currentHour : ℤ) : ModeName × RGBColor :=
  if HOUR_DAY_START ≤ currentHour ∧ currentHour < HOUR_AFTERNOON_START then
    (ModeName.DAYTIME, COLOR_DAYTIME)
  else if HOUR_AFTERNOON_START ≤ currentHour ∧ currentHour < HOUR_NIGHT_START then
    (ModeName.AFTERNOON, COLOR_AFTERNOON)
  else
    (ModeName.NIGHT, COLOR_NIGHT)

/-- setupFade(color, mode) of the live sketch (lines 175-185); `now` is millis(). -/
def setupFade (color : RGBColor) (mode : ModeName) (now : ℕ) (s : State) : State :=
  { s with
    startColor := s.currentColor
    endColor := color
    currentMode := mode
    fadeStartTime := now }

/-- checkMode(currentHour) of the live sketch (lines 152-172): select mode and
color from the hour, and call setupFade only when the mode actually changed. -/
def checkMode (currentHour : ℤ) (now : ℕ) (s : State) : State :=
  let mc := selectModeColor currentHour
  if mc.1 ≠ s.currentMode then setupFade mc.2 mc.1 now s else s

/-- The pixel value applyCurrentColor() of the live sketch writes (lines 207-212):
`strip.setPixelColor(i, currentColor.r, currentColor.g, currentColor.b)` -- the
current color, unscaled; `globalBrightness` is not consulted. -/
def applyPixel (globalBrightness : ℕ) (currentColor : RGBColor) : RGBColor :=
  currentColor

end Live

namespace Demo

/-- Demo color (line 47): `const RGBColor COLOR_DAYTIME = {0, 10, 50};` -- Calm Blue. -/
def COLOR_DAYTIME : RGBColor := ⟨0, 10, 50⟩

/-- Demo color (line 48): `const RGBColor COLOR_AFTERNOON = {255, 255, 255};` -- Bright White. -/
def COLOR_AFTERNOON : RGBColor := ⟨255, 255, 255⟩

/-- Demo color (line 49): `const RGBColor COLOR_NIGHT = {255, 140, 0};` -- Warm Amber. -/
def COLOR_NIGHT : RGBColor := ⟨255, 140, 0⟩

/-- HOLD_MODE: each demo mode is held for 10 s. -/
def HOLD_MODE : ℕ := 10000

/-- HOUR_DAY: simulated hour for the daytime demo. -/
def HOUR_DAY : ℤ := 10

/-- HOUR_AFTERNOON: simulated hour for the afternoon demo. -/
def HOUR_AFTERNOON : ℤ := 18

/-- HOUR_NIGHT: simulated hour for the night demo. -/
def HOUR_NIGHT : ℤ := 22

/-- DIST_MIN of the demo sketch. -/
def DIST_MIN : ℤ := 2

/-- DIST_MAX of the demo sketch. -/
def DIST_MAX : ℤ := 35

/-- BRIGHTNESS_FADE_DURATION: ms to go from 0 to full brightness. -/
def BRIGHTNESS_FADE_DURATION : ℚ := 2000

/-- The global state of the demo sketch touched by the mode-cycling part of loop(). -/
structure State where
  currentMode : ModeName
  simHour : ℤ
  currentColor : RGBColor
  startColor : RGBColor
  endColor : RGBColor
  fadeStartTime : ℕ
deriving DecidableEq, Repr

/-- Initial values of the demo globals: `currentMode = "NIGHT"`, `simHour = 0`,
all colors COLOR_NIGHT, `fadeStartTime = 0`. -/
def initialState : State :=
  ⟨ModeName.NIGHT, 0, COLOR_NIGHT, COLOR_NIGHT, COLOR_NIGHT, 0⟩

/-- setupFade(color) of the demo sketch (lines 181-187); `now` is millis(). -/
def setupFade (color : RGBColor) (now : ℕ) (s : State) : State :=
  { s with
    startColor := s.currentColor
    endColor := color
    fadeStartTime := now }

/-- setDemoMode(mode, hour, color) of the demo sketch (lines 174-178). -/
def setDemoMode (mode : ModeName) (hour : ℤ) (color : RGBColor) (now : ℕ) (s : State) : State :=
  setupFade color now { s with currentMode := mode, simHour := hour }

/-- The mode-cycling block at the top of the demo loop() (lines 96-116):
`cycleTime = millis() % 30000`, then switch mode at 0 s / 10 s / 20 s into the
cycle, calling setDemoMode only when the mode differs. -/
def modeCycleStep (currentMillis : ℕ) (s : State) : State :=
  let cycleTime := currentMillis % 30000
  if cycleTime < HOLD_MODE then
    if s.currentMode ≠ ModeName.DAYTIME then
      setDemoMode ModeName.DAYTIME HOUR_DAY COLOR_DAYTIME currentMillis s
    else s
  else if cycleTime < HOLD_MODE * 2 then
    if s.currentMode ≠ ModeName.AFTERNOON then
      setDemoMode ModeName.AFTERNOON HOUR_AFTERNOON COLOR_AFTERNOON currentMillis s
    else s
  else
    if s.currentMode ≠ ModeName.NIGHT then
      setDemoMode ModeName.NIGHT HOUR_NIGHT COLOR_NIGHT currentMillis s
    else s

/-- The brightness-smoothing state of the demo sketch. -/
structure BrightnessState where
  currentBrightnessPrecise : ℚ
  targetBrightness : ℕ
  globalBrightness : ℕ
deriving DecidableEq, Repr

/-- updateBrightnessSmoothly() of the demo sketch (lines 138-157), with
`dt = millis() - lastBrightUpdate` passed in.  Moves currentBrightnessPrecise
toward targetBrightness by at most `step = (255 / 2000) * dt`, clamping at the
target, then truncates into globalBrightness. -/
def updateBrightnessSmoothly (dt : ℕ) (s : BrightnessState) : BrightnessState :=
  let step : ℚ := 255 / BRIGHTNESS_FADE_DURATION * (dt : ℚ)
  let tgt : ℚ := (s.targetBrightness : ℚ)
  let cur : ℚ :=
    if s.currentBrightnessPrecise < tgt then
      let c := s.currentBrightnessPrecise + step
      if tgt < c then tgt else c
    else if tgt < s.currentBrightnessPrecise then
      let c := s.currentBrightnessPrecise - step
      if c < tgt then tgt else c
    else
      s.currentBrightnessPrecise
  { s with
    currentBrightnessPrecise := cur
    globalBrightness := truncToUInt8 cur }

/-- getDistance() of the demo sketch (lines 160-171), as a function of the
measured echo pulse duration in microseconds (pulseIn result; 0 on timeout).
The double constant 0.034 is modelled as the exact rational 34/1000; the cast
of the nonnegative result to long truncates, i.e. floors.  On timeout the
sentinel 999 is returned. -/
def getDistance (pulseDuration : ℕ) : ℤ :=
  if pulseDuration = 0 then 999
  else ⌊(pulseDuration : ℚ) * (34 / 1000) / 2⌋

/-- Arduino map(x, in_min, in_max, out_min, out_max) on long, with C truncating
integer division. -/
def arduinoMap (x inMin inMax outMin outMax : ℤ) : ℤ :=
  Int.tdiv ((x - inMin) * (outMax - outMin)) (inMax - inMin) + outMin

/-- Arduino constrain(amt, low, high). -/
def constrain (amt low high : ℤ) : ℤ :=
  if amt < low then low else if high < amt then high else amt

/-- The proximity branch of the demo loop() (lines 119-124): if the measured
distance is below DIST_MAX, remap it to a target brightness; otherwise leave
targetBrightness untouched. -/
def updateTargetBrightness (dist : ℤ) (targetBrightness : ℕ) : ℕ :=
  if dist < DIST_MAX then
    (constrain (arduinoMap dist DIST_MIN DIST_MAX 255 0) 0 255).toNat
  else
    targetBrightness

/-- The pixel value applyCurrentColor() of the demo sketch writes (lines 209-221):
each channel of currentColor scaled by `scale = globalBrightness / 255.0` and
truncated to uint8_t. -/
def applyPixel (globalBrightness : ℕ) (currentColor : RGBColor) : RGBColor :=
  let scale : ℚ := (globalBrightness : ℚ) / 255
  { r := truncToUInt8 ((currentColor.r : ℚ) * scale)
    g := truncToUInt8 ((currentColor.g : ℚ) * scale)
    b := truncToUInt8 ((currentColor.b : ℚ) * scale) }

end Demo

/-! ### Helper lemmas -/

/-- After any call to checkMode, the stored mode equals the mode selected from the hour
(whether or not a fade was started). -/
theorem checkMode_currentMode_eq (h : ℤ) (t : ℕ) (s : Live.State) :
    (Live.checkMode h t s).currentMode = (Live.selectModeColor h).1 := by
  by_cases hc : (Live.selectModeColor h).1 = s.currentMode
  · simp [Live.checkMode, hc]
  · simp [Live.checkMode, Live.setupFade, hc]

/-- checkMode is a no-op when the stored mode already equals the selected mode. -/
theorem checkMode_noop_of_same_mode (h : ℤ) (t : ℕ) (s : Live.State)
    (hm : s.currentMode = (Live.selectModeColor h).1) : Live.checkMode h t s = s := by
  simp [Live.checkMode, hm]

/-- Truncating `a * (g / 255)` over ℚ is exactly natural floor division `a * g / 255`. -/
theorem natFloor_mul_div (a g : ℕ) : ⌊(a : ℚ) * ((g : ℚ) / 255)⌋₊ = a * g / 255 := by
  have h : (a : ℚ) * ((g : ℚ) / 255) = ((a * g : ℕ) : ℚ) / ((255 : ℕ) : ℚ) := by
    push_cast
    ring
  rw [h, Nat.floor_div_nat, Nat.floor_natCast]

/-! ### Claims -/

/-- C1 (counterexample): fade() does not round the interpolated channel value.  At
startColor = (0,0,0), endColor = (255,255,255), elapsed = 7, duration = 3000 the exact
interpolation of the r channel is 255·(7/3000) = 0.595; the code truncates it to 0 while
the claimed round(start·(1-f) + end·f) is 1. -/
theorem fade_round_counterexample :
    7 < 3000 ∧
    (fade ⟨0, 0, 0⟩ ⟨255, 255, 255⟩ 7 3000).r = 0 ∧
    roundLerpChannel 0 255 ((7 : ℚ) / 3000) = 1 ∧
    (fade ⟨0, 0, 0⟩ ⟨255, 255, 255⟩ 7 3000).r ≠ roundLerpChannel 0 255 ((7 : ℚ) / 3000) := by
  have h1 : (fade ⟨0, 0, 0⟩ ⟨255, 255, 255⟩ 7 3000).r = 0 := by
    norm_num [fade, lerpChannel, truncToUInt8]
  have h2 : roundLerpChannel 0 255 ((7 : ℚ) / 3000) = 1 := by
    norm_num [roundLerpChannel, round_eq]
  exact ⟨by norm_num, h1, h2, by rw [h1, h2]; norm_num⟩

/-- C1 (amended): during an in-progress fade (elapsed < duration), fade() sets each of
currentColor's channels independently to the truncation (floor, not round) of
start·(1-f) + end·f where f = elapsed/duration. -/
theorem fade_lerp_truncates (sc ec : RGBColor) (elapsed duration : ℕ)
    (h : elapsed < duration) :
    fade sc ec elapsed duration =
      { r := ⌊(sc.r : ℚ) * (1 - (elapsed : ℚ) / (duration : ℚ)) +
              (ec.r : ℚ) * ((elapsed : ℚ) / (duration : ℚ))⌋₊
        g := ⌊(sc.g : ℚ) * (1 - (elapsed : ℚ) / (duration : ℚ)) +
              (ec.g : ℚ) * ((elapsed : ℚ) / (duration : ℚ))⌋₊
        b := ⌊(sc.b : ℚ) * (1 - (elapsed : ℚ) / (duration : ℚ)) +
              (ec.b : ℚ) * ((elapsed : ℚ) / (duration : ℚ))⌋₊ } := by
  simp [fade, lerpChannel, truncToUInt8, h]

/-- C1 witness: the amended theorem applied at a concrete in-progress instant. -/
theorem fade_lerp_truncates_witness :
    7 < 3000 ∧ fade ⟨0, 0, 0⟩ ⟨255, 255, 255⟩ 7 3000 = ⟨0, 0, 0⟩ := by
  refine ⟨by norm_num, ?_⟩
  have h := fade_lerp_truncates ⟨0, 0, 0⟩ ⟨255, 255, 255⟩ 7 3000 (by norm_num)
  rw [h]
  norm_num

/-- C2 (counterexample): under the second-definition-shadows-the-first reading the live
sketch's effective colors are its second block, and those agree with the demo sketch's
colors on all three modes — there is no mode on which the two sketches disagree. -/
theorem live_demo_colors_agree_counterexample :
    Live.COLOR_DAYTIME = Demo.COLOR_DAYTIME ∧
    Live.COLOR_AFTERNOON = Demo.COLOR_AFTERNOON ∧
    Live.COLOR_NIGHT = Demo.COLOR_NIGHT := by
  decide

/-- C2 (amended): the conflict is between the live sketch's two definition blocks, not
between the sketches: the live sketch's first color block disagrees with the demo's
mapping (and with its own second block) on every mode, while its second, shadowing
block coincides with the demo's mapping on all three modes. -/
theorem live_first_block_vs_demo_colors :
    (Live.COLOR_DAYTIME_first ≠ Demo.COLOR_DAYTIME ∧
     Live.COLOR_AFTERNOON_first ≠ Demo.COLOR_AFTERNOON ∧
     Live.COLOR_NIGHT_first ≠ Demo.COLOR_NIGHT) ∧
    (Live.COLOR_DAYTIME_first ≠ Live.COLOR_DAYTIME ∧
     Live.COLOR_AFTERNOON_first ≠ Live.COLOR_AFTERNOON ∧
     Live.COLOR_NIGHT_first ≠ Live.COLOR_NIGHT) ∧
    (Live.COLOR_DAYTIME = Demo.COLOR_DAYTIME ∧
     Live.COLOR_AFTERNOON = Demo.COLOR_AFTERNOON ∧
     Live.COLOR_NIGHT = Demo.COLOR_NIGHT) := by
  decide

/-- C6: for every elapsed time at or past the fade duration, fade() returns exactly the
end color in all three channels — no residual interpolation error. -/
theorem fade_complete_eq_endColor (sc ec : RGBColor) (elapsed duration : ℕ)
    (h : duration ≤ elapsed) :
    fade sc ec elapsed duration = ec := by
  simp [fade, Nat.not_lt.mpr h]

/-- C6 witness: at the exact end of the demo fade duration the end color is returned. -/
theorem fade_complete_eq_endColor_witness :
    FADE_DURATION_MS_demo ≤ 3000 ∧ fade ⟨1, 2, 3⟩ ⟨4, 5, 6⟩ 3000 FADE_DURATION_MS_demo = ⟨4, 5, 6⟩ :=
  ⟨by norm_num [FADE_DURATION_MS_demo],
   fade_complete_eq_endColor ⟨1, 2, 3⟩ ⟨4, 5, 6⟩ 3000 FADE_DURATION_MS_demo
     (by norm_num [FADE_DURATION_MS_demo])⟩

/-- C10: for channels in 0..255 and a factor in [0,1], the interpolated value
start·(1-f) + end·f lies between min(start,end) and max(start,end); consequently the
truncated 8-bit channel fade() computes is at most 255 — the narrowing cast never wraps. -/
theorem lerp_channel_no_wrap (s e : ℕ) (hs : s ≤ 255) (he : e ≤ 255) (f : ℚ)
    (hf0 : 0 ≤ f) (hf1 : f ≤ 1) :
    ((min s e : ℕ) : ℚ) ≤ (s : ℚ) * (1 - f) + (e : ℚ) * f ∧
    (s : ℚ) * (1 - f) + (e : ℚ) * f ≤ ((max s e : ℕ) : ℚ) ∧
    lerpChannel s e f ≤ 255 := by
  have hmin : ((min s e : ℕ) : ℚ) ≤ (s : ℚ) * (1 - f) + (e : ℚ) * f := by
    rcases le_total s e with h | h
    · rw [min_eq_left h]
      have hq : (s : ℚ) ≤ (e : ℚ) := by exact_mod_cast h
      nlinarith [mul_nonneg (sub_nonneg.mpr hq) hf0]
    · rw [min_eq_right h]
      have hq : (e : ℚ) ≤ (s : ℚ) := by exact_mod_cast h
      nlinarith [mul_nonneg (sub_nonneg.mpr hq) (sub_nonneg.mpr hf1)]
  have hmax : (s : ℚ) * (1 - f) + (e : ℚ) * f ≤ ((max s e : ℕ) : ℚ) := by
    rcases le_total s e with h | h
    · rw [max_eq_right h]
      have hq : (s : ℚ) ≤ (e : ℚ) := by exact_mod_cast h
      nlinarith [mul_nonneg (sub_nonneg.mpr hq) (sub_nonneg.mpr hf1)]
    · rw [max_eq_left h]
      have hq : (e : ℚ) ≤ (s : ℚ) := by exact_mod_cast h
      nlinarith [mul_nonneg (sub_nonneg.mpr hq) hf0]
  refine ⟨hmin, hmax, ?_⟩
  have h255 : (s : ℚ) * (1 - f) + (e : ℚ) * f ≤ (255 : ℚ) := by
    have hm : ((max s e : ℕ) : ℚ) ≤ (255 : ℚ) := by exact_mod_cast max_le hs he
    linarith
  calc lerpChannel s e f = ⌊(s : ℚ) * (1 - f) + (e : ℚ) * f⌋₊ := rfl
    _ ≤ ⌊(255 : ℚ)⌋₊ := Nat.floor_le_floor h255
    _ = 255 := by norm_num

/-- C10 witness: the bound at start = 0, end = 255, factor = 1/2. -/
theorem lerp_channel_no_wrap_witness :
    (0 : ℚ) ≤ 1 / 2 ∧ (1 / 2 : ℚ) ≤ 1 ∧ lerpChannel 0 255 (1 / 2) ≤ 255 :=
  ⟨by norm_num, by norm_num,
   (lerp_channel_no_wrap 0 255 (by norm_num) (by norm_num) (1 / 2)
     (by norm_num) (by norm_num)).2.2⟩

/-- C3 (counterexample): the live sketch's applyCurrentColor does not scale the pixel
value by globalBrightness/255.  At globalBrightness = 0 and currentColor = white the
scaled value would be (0,0,0) — as the demo sketch indeed writes — but the live sketch
writes (255,255,255) unchanged. -/
theorem live_apply_unscaled_counterexample :
    Live.applyPixel 0 ⟨255, 255, 255⟩ = ⟨255, 255, 255⟩ ∧
    Demo.applyPixel 0 ⟨255, 255, 255⟩ = ⟨0, 0, 0⟩ ∧
    Live.applyPixel 0 ⟨255, 255, 255⟩ ≠ Demo.applyPixel 0 ⟨255, 255, 255⟩ := by
  have hd : Demo.applyPixel 0 ⟨255, 255, 255⟩ = ⟨0, 0, 0⟩ := by
    norm_num [Demo.applyPixel, truncToUInt8]
  exact ⟨rfl, hd, by rw [hd]; decide⟩

/-- C3 (amended): only the demo sketch applies the smoothed brightness.  In the demo,
every pixel receives currentColor with each channel scaled by globalBrightness/255
(truncated, i.e. channel·g/255 in integer division), and globalBrightness is the
floor of currentBrightnessPrecise after each smoothing update; the live sketch's
applyCurrentColor writes currentColor unscaled, independent of globalBrightness. -/
theorem apply_brightness_scaling (g : ℕ) (c : RGBColor) (dt : ℕ) (s : Demo.BrightnessState) :
    Demo.applyPixel g c = ⟨c.r * g / 255, c.g * g / 255, c.b * g / 255⟩ ∧
    Live.applyPixel g c = c ∧
    (Demo.updateBrightnessSmoothly dt s).globalBrightness =
      ⌊(Demo.updateBrightnessSmoothly dt s).currentBrightnessPrecise⌋₊ := by
  refine ⟨?_, rfl, rfl⟩
  simp only [Demo.applyPixel, truncToUInt8, natFloor_mul_div]

/-- C4: brightness smoothing never overshoots — for every dt and every pre-state with
currentBrightnessPrecise and targetBrightness in [0,255], one update moves
currentBrightnessPrecise no farther from targetBrightness than it was, and once it
equals the target it stays exactly there. -/
theorem brightness_no_overshoot (dt : ℕ) (s : Demo.BrightnessState)
    (h0 : 0 ≤ s.currentBrightnessPrecise) (h1 : s.currentBrightnessPrecise ≤ 255)
    (h2 : s.targetBrightness ≤ 255) :
    |(Demo.updateBrightnessSmoothly dt s).currentBrightnessPrecise - (s.targetBrightness : ℚ)| ≤
      |s.currentBrightnessPrecise - (s.targetBrightness : ℚ)| ∧
    (s.currentBrightnessPrecise = (s.targetBrightness : ℚ) →
      (Demo.updateBrightnessSmoothly dt s).currentBrightnessPrecise = (s.targetBrightness : ℚ)) := by
  have hstep : (0 : ℚ) ≤ 255 / Demo.BRIGHTNESS_FADE_DURATION * (dt : ℚ) := by
    rw [Demo.BRIGHTNESS_FADE_DURATION]
    positivity
  simp only [Demo.updateBrightnessSmoothly]
  split_ifs with ha hb hc hd
  · refine ⟨?_, fun he => rfl⟩
    rw [sub_self, abs_zero]
    exact abs_nonneg _
  · constructor
    · rw [abs_of_nonpos (by linarith), abs_of_nonpos (by linarith)]
      linarith
    · intro he
      linarith
  · constructor
    · rw [abs_of_nonneg (by linarith), abs_of_nonneg (by linarith)]
      linarith
    · intro he
      linarith
  · constructor
    · rw [abs_of_nonneg (by linarith), abs_of_nonneg (by linarith)]
      linarith
    · intro he
      linarith
  · exact ⟨le_refl _, fun he => he⟩

/-- C4 witness: the no-overshoot bound at a concrete pre-state below its target. -/
theorem brightness_no_overshoot_witness :
    (0 : ℚ) ≤ 100 ∧ (100 : ℚ) ≤ 255 ∧ (200 : ℕ) ≤ 255 ∧
    |(Demo.updateBrightnessSmoothly 50 ⟨100, 200, 100⟩).currentBrightnessPrecise -
      ((200 : ℕ) : ℚ)| ≤ |(100 : ℚ) - ((200 : ℕ) : ℚ)| :=
  ⟨by norm_num, by norm_num, by norm_num,
   (brightness_no_overshoot 50 ⟨100, 200, 100⟩ (by norm_num) (by norm_num) (by norm_num)).1⟩

/-- C5: live mode selection is a pure function of the hour on half-open intervals —
[7,17) selects DAYTIME, [17,21) selects AFTERNOON, every other hour selects NIGHT —
checkMode always stores exactly the selected mode, and in particular hour 8 gives
DAYTIME, hour 18 gives AFTERNOON and hour 22 gives NIGHT. -/
theorem checkMode_hour_to_mode (h : ℤ) :
    (7 ≤ h ∧ h < 17 → (Live.selectModeColor h).1 = ModeName.DAYTIME) ∧
    (17 ≤ h ∧ h < 21 → (Live.selectModeColor h).1 = ModeName.AFTERNOON) ∧
    (h < 7 ∨ 21 ≤ h → (Live.selectModeColor h).1 = ModeName.NIGHT) ∧
    (∀ (t : ℕ) (s : Live.State), (Live.checkMode h t s).currentMode = (Live.selectModeColor h).1) ∧
    (Live.selectModeColor 8).1 = ModeName.DAYTIME ∧
    (Live.selectModeColor 18).1 = ModeName.AFTERNOON ∧
    (Live.selectModeColor 22).1 = ModeName.NIGHT := by
  refine ⟨?_, ?_, ?_, fun t s => checkMode_currentMode_eq h t s, by decide, by decide, by decide⟩
  · rintro ⟨hlo, hhi⟩
    simp [Live.selectModeColor, Live.HOUR_DAY_START, Live.HOUR_AFTERNOON_START, hlo, hhi]
  · rintro ⟨hlo, hhi⟩
    simp only [Live.selectModeColor]
    rw [if_neg (by rw [Live.HOUR_DAY_START, Live.HOUR_AFTERNOON_START]; omega),
      if_pos (by rw [Live.HOUR_AFTERNOON_START, Live.HOUR_NIGHT_START]; exact ⟨hlo, hhi⟩)]
  · intro hor
    have hn1 : ¬(Live.HOUR_DAY_START ≤ h ∧ h < Live.HOUR_AFTERNOON_START) := by
      rw [Live.HOUR_DAY_START, Live.HOUR_AFTERNOON_START]
      omega
    have hn2 : ¬(Live.HOUR_AFTERNOON_START ≤ h ∧ h < Live.HOUR_NIGHT_START) := by
      rw [Live.HOUR_AFTERNOON_START, Live.HOUR_NIGHT_START]
      omega
    simp [Live.selectModeColor, hn1, hn2]

/-- C5 witness: the interval facts instantiated at hour 8. -/
theorem checkMode_hour_to_mode_witness :
    ((7 : ℤ) ≤ 8 ∧ (8 : ℤ) < 17) ∧ (Live.selectModeColor 8).1 = ModeName.DAYTIME :=
  ⟨⟨by norm_num, by norm_num⟩, (checkMode_hour_to_mode 8).1 ⟨by norm_num, by norm_num⟩⟩

/-- C7: mode-check is idempotent — a second checkMode with the same hour (at any later
millis value) leaves startColor, endColor and fadeStartTime exactly as the first call
left them, because the selected mode already equals the stored currentMode. -/
theorem checkMode_idempotent (s : Live.State) (h : ℤ) (t1 t2 : ℕ) :
    (Live.checkMode h t2 (Live.checkMode h t1 s)).startColor =
      (Live.checkMode h t1 s).startColor ∧
    (Live.checkMode h t2 (Live.checkMode h t1 s)).endColor =
      (Live.checkMode h t1 s).endColor ∧
    (Live.checkMode h t2 (Live.checkMode h t1 s)).fadeStartTime =
      (Live.checkMode h t1 s).fadeStartTime := by
  have hfix : Live.checkMode h t2 (Live.checkMode h t1 s) = Live.checkMode h t1 s :=
    checkMode_noop_of_same_mode h t2 (Live.checkMode h t1 s) (checkMode_currentMode_eq h t1 s)
  rw [hfix]
  exact ⟨rfl, rfl, rfl⟩

/-- C8: the demo mode is a function of cycleTime = millis mod 30000 — DAYTIME on
[0,10000), AFTERNOON on [10000,20000), NIGHT on [20000,30000) — so at cycle times
0, 10000 and 20000 the stored mode becomes DAYTIME, AFTERNOON and NIGHT respectively,
wrapping back to DAYTIME at 30000. -/
theorem demo_mode_cycle (m : ℕ) (s : Demo.State) :
    (m % 30000 < 10000 → (Demo.modeCycleStep m s).currentMode = ModeName.DAYTIME) ∧
    (10000 ≤ m % 30000 ∧ m % 30000 < 20000 →
      (Demo.modeCycleStep m s).currentMode = ModeName.AFTERNOON) ∧
    (20000 ≤ m % 30000 → (Demo.modeCycleStep m s).currentMode = ModeName.NIGHT) ∧
    (Demo.modeCycleStep 0 s).currentMode = ModeName.DAYTIME ∧
    (Demo.modeCycleStep 10000 s).currentMode = ModeName.AFTERNOON ∧
    (Demo.modeCycleStep 20000 s).currentMode = ModeName.NIGHT ∧
    (Demo.modeCycleStep 30000 s).currentMode = ModeName.DAYTIME := by
  have hday : ∀ m : ℕ, m % 30000 < 10000 →
      (Demo.modeCycleStep m s).currentMode = ModeName.DAYTIME := by
    intro k hk
    simp only [Demo.modeCycleStep, Demo.setDemoMode, Demo.setupFade, Demo.HOLD_MODE]
    rw [if_pos hk]
    split_ifs with hne
    · rfl
    · simpa using hne
  have haft : ∀ m : ℕ, 10000 ≤ m % 30000 → m % 30000 < 20000 →
      (Demo.modeCycleStep m s).currentMode = ModeName.AFTERNOON := by
    intro k hk1 hk2
    simp only [Demo.modeCycleStep, Demo.setDemoMode, Demo.setupFade, Demo.HOLD_MODE]
    rw [if_neg (by omega), if_pos (by omega)]
    split_ifs with hne
    · rfl
    · simpa using hne
  have hnight : ∀ m : ℕ, 20000 ≤ m % 30000 →
      (Demo.modeCycleStep m s).currentMode = ModeName.NIGHT := by
    intro k hk
    have hk2 : k % 30000 < 30000 := Nat.mod_lt _ (by norm_num)
    simp only [Demo.modeCycleStep, Demo.setDemoMode, Demo.setupFade, Demo.HOLD_MODE]
    rw [if_neg (by omega), if_neg (by omega)]
    split_ifs with hne
    · rfl
    · simpa using hne
  exact ⟨hday m, fun hp => haft m hp.1 hp.2, hnight m,
    hday 0 (by norm_num), haft 10000 (by norm_num) (by norm_num),
    hnight 20000 (by norm_num), hday 30000 (by norm_num)⟩

/-- C8 witness: the cycle position facts instantiated at millis = 0 on the demo's
initial state. -/
theorem demo_mode_cycle_witness :
    0 % 30000 < 10000 ∧
    (Demo.modeCycleStep 0 Demo.initialState).currentMode = ModeName.DAYTIME :=
  ⟨by norm_num, (demo_mode_cycle 0 Demo.initialState).1 (by norm_num)⟩

/-- C9: a sensor timeout is not an error — when the echo pulse measurement returns 0,
getDistance returns the sentinel 999, which is not below DIST_MAX, so the proximity
branch of the loop leaves targetBrightness unchanged. -/
theorem sensor_timeout_no_update :
    Demo.getDistance 0 = 999 ∧
    ¬ Demo.getDistance 0 < Demo.DIST_MAX ∧
    ∀ t : ℕ, Demo.updateTargetBrightness (Demo.getDistance 0) t = t := by
  have hd : Demo.getDistance 0 = 999 := by decide
  refine ⟨hd, ?_, ?_⟩
  · rw [hd, Demo.DIST_MAX]
    norm_num
  · intro t
    rw [Demo.updateTargetBrightness, hd, Demo.DIST_MAX, if_neg (by norm_num)]

end Circadia
